import Mathlib

/-!
Shallow embedding of the book-catalog routes of `src/routes/auth/index.ts`
(`booksRouter`): the data model (Books, Author, Books_Authors), the SQL
queries each route issues (joins, grouping, `string_agg`, ordering, CTE
deletes), the validation middleware chains, and the observable HTTP
response of each route.  Numbers are modelled as rationals (JS numbers /
Postgres numerics on the values the routes handle), fallible paths as
explicit outcomes.  When a middleware sends an error response but still
calls `next()`, the handler still runs; the modelled `Response` is the
first response actually sent on the wire, and separate components record
whether storage was touched and how the store changed.
-/

namespace Catalog

/-- A raw JSON value position as seen by the numeric validation helper:
absent (`null`/`undefined`), present but non-numeric, or a number.  JS
comparison operators against the first two cases evaluate to `false`. -/
inductive RawVal where
  | missing
  | nonNumeric
  | num (x : ℚ)
deriving DecidableEq, Repr

/-- Modelled from the spec: the boundary validation helper
`validationFunctions.isNumberProvided` (its source is not under `src/`); a
pure presence/type predicate, true exactly when the value is present and
numeric. -/
def isNumberProvided : RawVal → Bool
  | .num _ => true
  | _ => false

/-- Modelled from the spec: the boundary validation helper
`validationFunctions.isStringProvided` (its source is not under `src/`);
true exactly when the value is a present, non-empty string. -/
def isStringProvided : Option String → Bool
  | some s => s.length > 0
  | none => false

/-- A row of the `Books` table, columns as named in the route SQL. -/
structure BookRow where
  isbn13 : ℚ
  title : String
  original_title : String
  publication_year : ℚ
  rating_avg : ℚ
  rating_count : ℚ
  rating_1_star : ℚ
  rating_2_star : ℚ
  rating_3_star : ℚ
  rating_4_star : ℚ
  rating_5_star : ℚ
  image_url : String
  image_small_url : String
deriving DecidableEq, Repr

/-- A row of the `Author` table. -/
structure AuthorRow where
  author_id : Nat
  author_name : String
deriving DecidableEq, Repr

/-- A row of the `books_authors` join table. -/
structure LinkRow where
  isbn13 : ℚ
  author_id : Nat
deriving DecidableEq, Repr

/-- The storage state the routes operate on. -/
structure Store where
  books : List BookRow
  authors : List AuthorRow
  links : List LinkRow
deriving DecidableEq, Repr

/-- The inner join `books b JOIN Books_Authors ba ON b.isbn13 = ba.isbn13
JOIN Author a ON ba.Author_id = a.Author_id`: one element per joined row,
carrying the book row and the joined author name, in table order. -/
def joinRows (s : Store) : List (BookRow × String) :=
  s.books.flatMap fun b =>
    (s.links.filter fun l => l.isbn13 == b.isbn13).flatMap fun l =>
      (s.authors.filter fun a => a.author_id == l.author_id).map fun a =>
        (b, a.author_name)

/-- `GROUP BY` all book columns over a list of joined rows: one group per
distinct book row, paired with the author names of its joined rows in join
order. -/
def groupRows (rows : List (BookRow × String)) : List (BookRow × List String) :=
  (rows.map Prod.fst).dedup.map fun b =>
    (b, (rows.filter fun r => r.1 == b).map Prod.snd)

/-- The denormalized view every read query builds: join then group. -/
def groupedView (s : Store) : List (BookRow × List String) :=
  groupRows (joinRows s)

/-- Codepoint-lexicographic comparison of character lists: the text
ordering `ORDER BY a.Author_name` sorts by (C collation). -/
def leChars : List Char → List Char → Bool
  | [], _ => true
  | _ :: _, [] => false
  | a :: as, b :: bs =>
    a.toNat < b.toNat || (a.toNat == b.toNat && leChars as bs)

/-- Codepoint-lexicographic `≤` on strings. -/
def strLe (a b : String) : Bool :=
  leChars a.data b.data

/-- `strLe` as a relation, for the sort. -/
def strLeRel : String → String → Prop := fun a b => strLe a b = true

instance : DecidableRel strLeRel :=
  fun a b => inferInstanceAs (Decidable (strLe a b = true))

/-- The `ORDER BY a.Author_name` inside `string_agg`. -/
def sortAuthors (names : List String) : List String :=
  List.insertionSort strLeRel names

/-- `string_agg(a.Author_name, ', ' ORDER BY a.Author_name)`. -/
def aggSorted (names : List String) : String :=
  String.intercalate ", " (sortAuthors names)

/-- The `ratings` object of the wire book shape. -/
structure IRatings where
  average : ℚ
  count : ℚ
  rating_1 : ℚ
  rating_2 : ℚ
  rating_3 : ℚ
  rating_4 : ℚ
  rating_5 : ℚ
deriving DecidableEq, Repr

/-- The `icons` object of the wire book shape. -/
structure IUrlIcon where
  large : String
  small : String
deriving DecidableEq, Repr

/-- The wire shape assembled by `toBook`.  `authors` is the joined author
string column of the row; in the delete routes' `RETURNING` rows the scalar
subquery can produce SQL NULL, hence `Option`. -/
structure IBook where
  isbn13 : ℚ
  authors : Option String
  publication : ℚ
  original_title : String
  title : String
  ratings : IRatings
  icons : IUrlIcon
deriving DecidableEq, Repr

/-- `toBook(row)` from the source, applied to a row of book columns plus
the row's `authors` value. -/
def toBook (b : BookRow) (authors : Option String) : IBook :=
  { isbn13 := b.isbn13
    authors := authors
    publication := b.publication_year
    original_title := b.original_title
    title := b.title
    ratings :=
      { average := b.rating_avg
        count := b.rating_count
        rating_1 := b.rating_1_star
        rating_2 := b.rating_2_star
        rating_3 := b.rating_3_star
        rating_4 := b.rating_4_star
        rating_5 := b.rating_5_star }
    icons := { large := b.image_url, small := b.image_small_url } }

/-- A grouped view row to the wire book: aggregated authors, sorted. -/
def viewToIBook (g : BookRow × List String) : IBook :=
  toBook g.1 (some (aggSorted g.2))

/-- The pagination metadata block of the offset-pagination route. -/
structure PageBlock where
  totalRecords : Nat
  limit : ℚ
  offset : ℚ
  nextPage : ℚ
deriving DecidableEq, Repr

/-- The observable HTTP outcome of a route: the first response actually
sent (later `send` attempts on an already-sent response fail and are not
observed by the client). -/
inductive Response where
  | result (status : Nat) (b : IBook)
  | results (status : Nat) (bs : List IBook)
  | updatedRow (status : Nat) (b : BookRow)
  | paged (status : Nat) (bs : List IBook) (pg : PageBlock)
  | ok (status : Nat) (message : String)
  | err (status : Nat) (message : String)
deriving DecidableEq, Repr

/-- The seven-field ratings object of a request body (insert entry and
rating-update both carry it), each field a raw JSON position. -/
structure RawRatings where
  average : RawVal
  count : RawVal
  rating1 : RawVal
  rating2 : RawVal
  rating3 : RawVal
  rating4 : RawVal
  rating5 : RawVal
deriving DecidableEq, Repr

/-- The `icons` object of an insert entry. -/
structure RawIcons where
  large : Option String
  small : Option String
deriving DecidableEq, Repr

/-- The `entry` object of a POST /books body. -/
structure RawEntry where
  isbn13 : RawVal
  authors : Option String
  publication : RawVal
  original_title : Option String
  title : Option String
  ratings : Option RawRatings
  icons : Option RawIcons
deriving DecidableEq, Repr

/-- JS `isNumberProvided(v) && v >= 0` (comparisons against `undefined` or a
non-numeric string are false). -/
def rawNonNeg : RawVal → Bool
  | .num x => decide (0 ≤ x)
  | _ => false

/-- JS `v != null && v >= c` for a numeric lower bound `c`. -/
def rawGe (v : RawVal) (c : ℚ) : Bool :=
  match v with
  | .num x => decide (c ≤ x)
  | _ => false

/-- JS `v != null && v <= c` for a numeric upper bound `c`. -/
def rawLe (v : RawVal) (c : ℚ) : Bool :=
  match v with
  | .num x => decide (x ≤ c)
  | _ => false

/-- The insert route's ratings aggregate check (source lines 174-185). -/
def ratingsEntryValid : Option RawRatings → Bool
  | none => false
  | some r =>
    rawGe r.average 1 && rawLe r.average 5 && rawGe r.count 0 &&
    rawGe r.rating1 0 && rawGe r.rating2 0 && rawGe r.rating3 0 &&
    rawGe r.rating4 0 && rawGe r.rating5 0

/-- `icons != null && icons.large != null && isStringProvided(icons.large)`. -/
def iconLargeValid : Option RawIcons → Bool
  | some ic =>
    match ic.large with
    | some s => isStringProvided (some s)
    | none => false
  | none => false

/-- `icons != null && icons.small != null && isStringProvided(icons.small)`. -/
def iconSmallValid : Option RawIcons → Bool
  | some ic =>
    match ic.small with
    | some s => isStringProvided (some s)
    | none => false
  | none => false

/-- The POST /books validation middleware (source lines 145-200): each
`verifyElement` call sends a 400 on failure but never stops the chain, and
the middleware ends with an unconditional `next()`.  This is the message of
the first 400 actually sent, in source order, if any. -/
def insertFirstError (e : RawEntry) : Option String :=
  if rawNonNeg e.isbn13 = false then
    some "Invalid or missing ISBN - please refer to documentation"
  else if isStringProvided e.authors = false then
    some "Invalid or missing Authors - please refer to documentation"
  else if rawNonNeg e.publication = false then
    some "Invalid or missing Publication - please refer to documentation"
  else if isStringProvided e.original_title = false then
    some "Invalid or missing Original Title - please refer to documentation"
  else if isStringProvided e.title = false then
    some "Invalid or missing Title - please refer to documentation"
  else if ratingsEntryValid e.ratings = false then
    some "Invalid or missing Rating - please refer to documentation"
  else if iconLargeValid e.icons = false then
    some "Invalid or missing Image Url - please refer to documentation"
  else if iconSmallValid e.icons = false then
    some "Invalid or missing Image Small Url - please refer to documentation"
  else none

/-- Whether the first list starts the second (helper of the separator
search below). -/
def beginsWith : List Char → List Char → Bool
  | [], _ => true
  | _ :: _, [] => false
  | c :: cs, d :: ds => c == d && beginsWith cs ds

/-- First occurrence of the separator: the characters before it and the
characters after it, if it occurs. -/
def findSep (sep : List Char) : List Char → Option (List Char × List Char)
  | [] => none
  | c :: rest =>
    if beginsWith sep (c :: rest) then some ([], (c :: rest).drop sep.length)
    else
      match findSep sep rest with
      | some pr => some (c :: pr.1, pr.2)
      | none => none

/-- Fuelled splitting loop (the fuel, the input length, bounds the number
of separator occurrences). -/
def splitChars (sep : List Char) : Nat → List Char → List (List Char)
  | 0, l => [l]
  | fuel + 1, l =>
    match findSep sep l with
    | none => [l]
    | some pr => pr.1 :: splitChars sep fuel pr.2

/-- JS `entry.authors.split(", ")`: split on the literal two-character
separator, left to right, non-overlapping. -/
def splitAuthors (s : String) : List String :=
  (splitChars [',', ' '] s.data.length s.data).map (fun l => String.mk l)

/-- `INSERT INTO Author ... ON CONFLICT (author_name) DO UPDATE ...
RETURNING author_id`: reuse the existing id or create a fresh row. -/
def upsertAuthor (s : Store) (name : String) : Store × Nat :=
  match s.authors.find? (fun a => a.author_name == name) with
  | some a => (s, a.author_id)
  | none =>
    let id := (s.authors.foldl (fun m a => max m a.author_id) 0) + 1
    ({ s with authors := s.authors ++ [⟨id, name⟩] }, id)

/-- `INSERT INTO books_authors ... ON CONFLICT (isbn13, author_id) DO
NOTHING`. -/
def insertLink (s : Store) (i : ℚ) (id : Nat) : Store :=
  if s.links.any (fun l => l.isbn13 == i && l.author_id == id) then s
  else { s with links := s.links ++ [⟨i, id⟩] }

/-- The Book row the insert handler's INSERT produces from the entry, when
every bound value is present (a missing bind is a null for a required
column and the INSERT fails instead). -/
def entryToRow (e : RawEntry) : Option BookRow :=
  match e.isbn13, e.publication, e.original_title, e.title, e.ratings, e.icons with
  | .num i, .num p, some ot, some t, some r, some ic =>
    match r.average, r.count, r.rating1, r.rating2, r.rating3, r.rating4,
          r.rating5, ic.large, ic.small with
    | .num av, .num c, .num a1, .num a2, .num a3, .num a4, .num a5, some lg, some sm =>
      some ⟨i, t, ot, p, av, c, a1, a2, a3, a4, a5, lg, sm⟩
    | _, _, _, _, _, _, _, _, _ => none
  | _, _, _, _, _, _ => none

/-- POST /books.  Because the validation middleware always calls `next()`,
the handler runs even after a 400 was sent; it crashes before any query
only when `entry.authors` is not a string (`.split` on a non-string).
Result: (store after the request, observable response, whether the Book
INSERT query was issued). -/
def postBooks (s : Store) (e : RawEntry) : Store × Response × Bool :=
  let verr := insertFirstError e
  match e.authors with
  | none =>
    (s, (match verr with
         | some m => Response.err 400 m
         | none => Response.err 500 "server error - contact support"), false)
  | some authStr =>
    match entryToRow e with
    | none =>
      (s, (match verr with
           | some m => Response.err 400 m
           | none => Response.err 500 "server error - contact support"), true)
    | some row =>
      if s.books.any (fun b => b.isbn13 == row.isbn13) then
        (s, (match verr with
             | some m => Response.err 400 m
             | none => Response.err 400 "Book exists"), true)
      else
        let s1 := { s with books := s.books ++ [row] }
        let s2 := (splitAuthors authStr).foldl (fun st name =>
          let su := upsertAuthor st name
          insertLink su.1 row.isbn13 su.2) s1
        (s2, (match verr with
              | some m => Response.err 400 m
              | none => Response.ok 201 "Book successfully added."), true)

/-- The shared `:isbn` middleware of GET/DELETE /books/isbns/:isbn and PUT
/books/rating/:isbn (source lines 327-341, 443-457, 744-758): the message
of the 400 it sends, if any.  Its range test is
`Number(isbn) < 0 || Number(isbn) > Math.pow(10, 13)`, and it ends with an
unconditional `next()`. -/
def isbnParamFirstError (p : RawVal) : Option String :=
  match p with
  | .missing => some "No query parameter in url - please refer to documentation"
  | .nonNumeric => some "Query parameter not of required type - please refer to documentation"
  | .num x =>
    if x < 0 ∨ x > 10 ^ 13 then some "ISBN not in range - please refer to documentation"
    else none

/-- GET /books/isbns/:isbn.  The query always runs (unconditional
`next()`); the response is the Book on exactly one matched view row and a
404 otherwise.  Result: (observable response, whether the storage query was
issued). -/
def getBookByIsbn (s : Store) (p : RawVal) : Response × Bool :=
  let fallback :=
    match p with
    | .num x =>
      match (groupedView s).filter (fun g => g.1.isbn13 == x) with
      | [g] => Response.result 200 (viewToIBook g)
      | _ => Response.err 404 "No book with given ISBN"
    | _ => Response.err 500 "server error - contact support"
  ((match isbnParamFirstError p with
    | some m => Response.err 400 m
    | none => fallback), true)

/-- DELETE /books/isbns/:isbn: CTE computes the pre-image with aggregated
authors, then `DELETE ... RETURNING *, (SELECT authors FROM delete_book)`.
The uncorrelated scalar subquery errors when the CTE holds more than one
row; a deleted book with no author links gets a NULL authors value. -/
def deleteBookByIsbn (s : Store) (p : RawVal) : Store × Response × Bool :=
  match p with
  | .num x =>
    let matched := s.books.filter (fun b => b.isbn13 == x)
    let cte := (groupedView s).filter (fun g => g.1.isbn13 == x)
    if 2 ≤ cte.length then
      (s, (match isbnParamFirstError p with
           | some m => Response.err 400 m
           | none => Response.err 500 "server error - contact support"), true)
    else
      let s1 := { s with books := s.books.filter (fun b => !(b.isbn13 == x)) }
      let authorsOpt := cte.head?.map (fun g => aggSorted g.2)
      let fallback :=
        match matched with
        | [b] => Response.result 200 (toBook b authorsOpt)
        | _ => Response.err 404 "No book with given ISBN"
      (s1, (match isbnParamFirstError p with
            | some m => Response.err 400 m
            | none => fallback), true)
  | _ =>
    (s, (match isbnParamFirstError p with
         | some m => Response.err 400 m
         | none => Response.err 500 "server error - contact support"), true)

/-- JS `v < 0` on a raw value. -/
def rawLtZero : RawVal → Bool
  | .num x => decide (x < 0)
  | _ => false

/-- Presence of all seven numeric rating fields (first loop of the
rating-update validation middleware, source lines 771-780). -/
def allRatingsProvided (r : RawRatings) : Bool :=
  isNumberProvided r.average && isNumberProvided r.count &&
  isNumberProvided r.rating1 && isNumberProvided r.rating2 &&
  isNumberProvided r.rating3 && isNumberProvided r.rating4 &&
  isNumberProvided r.rating5

/-- Some count among `count, rating1..rating5` is negative (second loop,
source lines 782-789). -/
def someCountNegative (r : RawRatings) : Bool :=
  rawLtZero r.count || rawLtZero r.rating1 || rawLtZero r.rating2 ||
  rawLtZero r.rating3 || rawLtZero r.rating4 || rawLtZero r.rating5

/-- `rating_avg > 5 || rating_avg < 1` (source lines 791-796), with JS
comparison semantics on a missing or non-numeric value. -/
def avgOutOfRange (r : RawRatings) : Bool :=
  match r.average with
  | .num x => decide (x > 5) || decide (x < 1)
  | _ => false

/-- The PUT /books/rating/:isbn validation middleware (source lines
760-800): the message of the first 400 sent, if any.  Execution order is:
the presence loop over all seven fields, then the negative-count loop over
the six counts, then the average range check. -/
def ratingUpdateFirstError (r : RawRatings) : Option String :=
  if allRatingsProvided r = false then
    some "Missing fields within the body - please refer to documentation"
  else if someCountNegative r then
    some "Rating count must be positive - please refer to documenation"
  else if avgOutOfRange r then
    some "Rating average is not in range of 1 to 5 inclusive - please refer to documentation"
  else none

/-- Whether the rating-update validation middleware reaches `next()`: only
the final average range check guards it (the earlier loops send 400s but
never return), and a missing or non-numeric average makes both JS
comparisons false, so `next()` is still called. -/
def ratingNextCalled (r : RawRatings) : Bool :=
  match r.average with
  | .num x => !(decide (x > 5) || decide (x < 1))
  | _ => true

/-- The seven-field full replace the UPDATE performs on a matched row. -/
def applyRatingUpdate (b : BookRow) (av c a1 a2 a3 a4 a5 : ℚ) : BookRow :=
  { b with rating_avg := av, rating_count := c, rating_1_star := a1,
           rating_2_star := a2, rating_3_star := a3, rating_4_star := a4,
           rating_5_star := a5 }

/-- First response sent across two middlewares and a handler outcome. -/
def firstSent2 (m1 m2 : Option String) (fb : Response) : Response :=
  match m1 with
  | some m => Response.err 400 m
  | none =>
    match m2 with
    | some m => Response.err 400 m
    | none => fb

/-- PUT /books/rating/:isbn.  The UPDATE runs whenever the second
middleware reaches `next()`; with a missing or non-numeric bind the storage
round trip fails and no row changes (rating columns are required
attributes — modelled from the spec, the schema is not under `src/`).
Result: (store after, observable response, whether the UPDATE was
issued). -/
def putBooksRating (s : Store) (p : RawVal) (r : RawRatings) :
    Store × Response × Bool :=
  let mw1 := isbnParamFirstError p
  let mw2 := ratingUpdateFirstError r
  if ratingNextCalled r then
    match p, r.average, r.count, r.rating1, r.rating2, r.rating3, r.rating4, r.rating5 with
    | .num x, .num av, .num c, .num a1, .num a2, .num a3, .num a4, .num a5 =>
      let matched := s.books.filter (fun b => b.isbn13 == x)
      let s1 := { s with books := s.books.map (fun b =>
        if b.isbn13 == x then applyRatingUpdate b av c a1 a2 a3 a4 a5 else b) }
      let fb :=
        match matched with
        | [b] => Response.updatedRow 201 (applyRatingUpdate b av c a1 a2 a3 a4 a5)
        | _ => Response.err 404 "No book with given ISBN"
      (s1, firstSent2 mw1 mw2 fb, true)
    | _, _, _, _, _, _, _, _ =>
      (s, firstSent2 mw1 mw2 (Response.err 500 "server error - contact support"), true)
  else
    (s, firstSent2 mw1 mw2 (Response.err 500 "server error - contact support"), false)

/-- JS `max < min` with a numeric `min` and a raw `max`. -/
def rawLtNum (v : RawVal) (m : ℚ) : Bool :=
  match v with
  | .num x => decide (x < m)
  | _ => false

/-- The POST /books/rating validation middleware (source lines 570-616).
Note the source tests `isNumberProvided(min)` twice and never tests `max`
in the happy-path condition. -/
def ratingRangeFirstError (mn mx : RawVal) (ord : Option String) : Option String :=
  match mn, isStringProvided ord with
  | .num m, true =>
    if m ≤ 0 then
      some "Missing or invalid lower-bound parameter - please refer to documentation"
    else if rawLtNum mx m then
      some "The lower bound for the interal is greater than the upper bound - please refer to documentation"
    else if ord ≠ some "min-first" ∧ ord ≠ some "max-first" then
      some "Ordering field must be one of set options - please refer to documentation"
    else none
  | .num _, false =>
    if isNumberProvided mx = false then
      some "Missing or invalid upper-bound parameter - please refer to documentation"
    else some "Missing ordering field in http body - please refer to documentation"
  | _, _ =>
    some "Missing or invalid lower-bound parameter - please refer to documentation"

/-- Ascending order on a view row's `rating_avg`. -/
def avgAsc : (BookRow × List String) → (BookRow × List String) → Prop :=
  fun a b => a.1.rating_avg ≤ b.1.rating_avg

instance : DecidableRel avgAsc :=
  fun a b => inferInstanceAs (Decidable (a.1.rating_avg ≤ b.1.rating_avg))

/-- Descending order on a view row's `rating_avg`. -/
def avgDesc : (BookRow × List String) → (BookRow × List String) → Prop :=
  fun a b => b.1.rating_avg ≤ a.1.rating_avg

instance : DecidableRel avgDesc :=
  fun a b => inferInstanceAs (Decidable (b.1.rating_avg ≤ a.1.rating_avg))

/-- `ORDER BY rating_avg ASC`. -/
def sortByAvgAsc (l : List (BookRow × List String)) : List (BookRow × List String) :=
  List.insertionSort avgAsc l

/-- `ORDER BY rating_avg DESC`. -/
def sortByAvgDesc (l : List (BookRow × List String)) : List (BookRow × List String) :=
  List.insertionSort avgDesc l

/-- `WHERE rating_avg >= $1 AND rating_avg <= $2` over the grouped view. -/
def ratingRangeRows (s : Store) (m mM : ℚ) : List (BookRow × List String) :=
  (groupedView s).filter (fun g =>
    decide (m ≤ g.1.rating_avg) && decide (g.1.rating_avg ≤ mM))

/-- POST /books/rating.  This middleware short-circuits properly (each
branch either sends or calls `next()`), so a rejected request issues no
query.  Result: (observable response, whether the storage query was
issued). -/
def postBooksRating (s : Store) (mn mx : RawVal) (ord : Option String) :
    Response × Bool :=
  match ratingRangeFirstError mn mx ord with
  | some m => (Response.err 400 m, false)
  | none =>
    match mn, mx with
    | .num m, .num mM =>
      let rows := ratingRangeRows s m mM
      let sorted := if ord = some "min-first" then sortByAvgAsc rows else sortByAvgDesc rows
      (Response.results 200 (sorted.map viewToIBook), true)
    | .num _, .missing =>
      (Response.results 200 [], true)
    | _, _ => (Response.err 500 "server error - contact support", true)

/-- GET /books/title/:name: exact title equality, 404 on zero rows. -/
def getBooksByTitle (s : Store) (name : Option String) : Response :=
  if isStringProvided name = false then Response.err 400 "No query parameter in url"
  else
    match name with
    | some t =>
      let rows := (groupedView s).filter (fun g => g.1.title == t)
      if 1 ≤ rows.length then Response.results 200 (rows.map viewToIBook)
      else Response.err 404 "No book with given title"
    | none => Response.err 400 "No query parameter in url"

/-- DELETE /books/title/:name: the CTE computes the matching pre-images
with aggregated authors, then `DELETE FROM Books WHERE title = $1
RETURNING *, (SELECT authors FROM delete_book)`.  The scalar subquery is
uncorrelated: with two or more rows in the CTE the statement errors and is
rolled back; with one it attaches that row's authors to every returned
row; with zero it yields NULL. -/
def deleteBooksByTitle (s : Store) (name : Option String) : Store × Response :=
  if isStringProvided name = false then (s, Response.err 400 "No query parameter in url")
  else
    match name with
    | some t =>
      let matched := s.books.filter (fun b => b.title == t)
      let cte := (groupedView s).filter (fun g => g.1.title == t)
      if 2 ≤ cte.length then
        (s, Response.err 500 "server error - contact support")
      else
        let authorsOpt := cte.head?.map (fun g => aggSorted g.2)
        if 1 ≤ matched.length then
          ({ s with books := s.books.filter (fun b => !(b.title == t)) },
           Response.results 200 (matched.map (fun b => toBook b authorsOpt)))
        else (s, Response.err 404 "title not found")
    | none => (s, Response.err 400 "No query parameter in url")

/-- GET /books/author/:name: `WHERE a.Author_name = $1` filters the join
rows before grouping, so the aggregated string only contains the searched
author. -/
def getBooksByAuthor (s : Store) (name : Option String) : Response :=
  if isStringProvided name = false then Response.err 400 "No query parameter in url"
  else
    match name with
    | some nm =>
      let rows := groupRows ((joinRows s).filter (fun r => r.2 == nm))
      if 1 ≤ rows.length then Response.results 200 (rows.map viewToIBook)
      else Response.err 404 "Author not found"
    | none => Response.err 400 "No query parameter in url"

/-- SQL `TRIM(x)`: strip leading and trailing spaces. -/
def trimSpaces (s : String) : String :=
  String.mk (((s.data.dropWhile (fun c => c == ' ')).reverse.dropWhile
    (fun c => c == ' ')).reverse)

/-- The DELETE /books/author/:name CTE's per-isbn author aggregation:
`string_agg(TRIM(a.Author_Name), ', ')` with no ORDER BY, grouped by
isbn13 — the names appear in join order, trimmed, unsorted. -/
def authorCsvJoinOrder (s : Store) (i : ℚ) : Option String :=
  let names := ((joinRows s).filter (fun r => r.1.isbn13 == i)).map (fun r => trimSpaces r.2)
  if names.isEmpty then none else some (String.intercalate ", " names)

/-- DELETE /books/author/:name: deletes every book whose isbn is linked to
the named author-and returns each pre-image with the CTE's correlated,
unsorted author aggregation. -/
def deleteBooksByAuthor (s : Store) (name : Option String) : Store × Response :=
  if isStringProvided name = false then (s, Response.err 400 "No query parameter in url")
  else
    match name with
    | some nm =>
      let isTarget := fun (i : ℚ) => (joinRows s).any (fun r => r.1.isbn13 == i && r.2 == nm)
      let deleted := s.books.filter (fun b => isTarget b.isbn13)
      if 1 ≤ deleted.length then
        ({ s with books := s.books.filter (fun b => !(isTarget b.isbn13)) },
         Response.results 200 (deleted.map (fun b => toBook b (authorCsvJoinOrder s b.isbn13))))
      else (s, Response.err 404 "Authors not found")
    | none => (s, Response.err 400 "No query parameter in url")

/-- The pagination limit resolution (source lines 1352-1355): the raw
value when it is a number strictly greater than 0, else the default 16. -/
def resolveLimit (v : RawVal) : ℚ :=
  match v with
  | .num x => if 0 < x then x else 16
  | _ => 16

/-- The pagination offset resolution (source lines 1356-1359): the raw
value when it is a number greater than or equal to 0, else the default 0. -/
def resolveOffset (v : RawVal) : ℚ :=
  match v with
  | .num x => if 0 ≤ x then x else 0
  | _ => 0

/-- POST /books/pagination/offset: the grouped scan with LIMIT/OFFSET, a
separate `count(*) FROM Books` snapshot, and the pagination block with
`nextPage = limit + offset`. -/
def postPaginationOffset (s : Store) (lim off : RawVal) : Response :=
  let l := resolveLimit lim
  let o := resolveOffset off
  let rows := ((groupedView s).drop o.floor.toNat).take l.floor.toNat
  Response.paged 200 (rows.map viewToIBook) ⟨s.books.length, l, o, l + o⟩

/-! ## Ordering facts about the embedded sorts -/

theorem leChars_total : ∀ a b, leChars a b = true ∨ leChars b a = true := by
  intro a
  induction a with
  | nil => intro b; left; rfl
  | cons c cs ih =>
    intro b
    cases b with
    | nil => right; rfl
    | cons d ds =>
      simp only [leChars, Bool.or_eq_true, Bool.and_eq_true, decide_eq_true_eq,
        Nat.beq_eq_true_eq]
      rcases Nat.lt_trichotomy c.toNat d.toNat with h | h | h
      · left; left; exact h
      · rcases ih ds with h2 | h2
        · left; right; exact ⟨h, h2⟩
        · right; right; exact ⟨h.symm, h2⟩
      · right; left; exact h

theorem leChars_trans :
    ∀ a b c, leChars a b = true → leChars b c = true → leChars a c = true := by
  intro a
  induction a with
  | nil => intro b c _ _; rfl
  | cons x xs ih =>
    intro b c hab hbc
    cases b with
    | nil => simp [leChars] at hab
    | cons y ys =>
      cases c with
      | nil => simp [leChars] at hbc
      | cons z zs =>
        simp only [leChars, Bool.or_eq_true, Bool.and_eq_true, decide_eq_true_eq,
          Nat.beq_eq_true_eq] at hab hbc ⊢
        rcases hab with h1 | ⟨he1, h1⟩ <;> rcases hbc with h2 | ⟨he2, h2⟩
        · left; omega
        · left; omega
        · left; omega
        · right; exact ⟨by omega, ih ys zs h1 h2⟩

theorem strLeRel_total : ∀ a b : String, strLeRel a b ∨ strLeRel b a :=
  fun a b => leChars_total a.data b.data

theorem strLeRel_trans :
    ∀ a b c : String, strLeRel a b → strLeRel b c → strLeRel a c :=
  fun a b c h1 h2 => leChars_trans a.data b.data c.data h1 h2

theorem sortAuthors_sorted (l : List String) : (sortAuthors l).Pairwise strLeRel :=
  @List.sorted_insertionSort String strLeRel _ ⟨strLeRel_total⟩ ⟨strLeRel_trans⟩ l

theorem sortAuthors_perm (l : List String) : (sortAuthors l).Perm l :=
  List.perm_insertionSort strLeRel l

theorem sortByAvgAsc_sorted (l : List (BookRow × List String)) :
    (sortByAvgAsc l).Pairwise avgAsc :=
  @List.sorted_insertionSort _ avgAsc _ ⟨fun a b => le_total a.1.rating_avg b.1.rating_avg⟩
    ⟨fun _ _ _ h1 h2 => le_trans h1 h2⟩ l

theorem sortByAvgAsc_perm (l : List (BookRow × List String)) :
    (sortByAvgAsc l).Perm l :=
  List.perm_insertionSort avgAsc l

theorem sortByAvgDesc_sorted (l : List (BookRow × List String)) :
    (sortByAvgDesc l).Pairwise avgDesc :=
  @List.sorted_insertionSort _ avgDesc _ ⟨fun a b => le_total b.1.rating_avg a.1.rating_avg⟩
    ⟨fun _ _ _ h1 h2 => le_trans h2 h1⟩ l

theorem sortByAvgDesc_perm (l : List (BookRow × List String)) :
    (sortByAvgDesc l).Perm l :=
  List.perm_insertionSort avgDesc l

/-! ## Sorted-authors predicates for the denormalized view -/

/-- A string is the comma-join of an alphabetically sorted list of names. -/
def IsSortedCsv (str : String) : Prop :=
  ∃ names : List String, names.Pairwise strLeRel ∧ str = String.intercalate ", " names

/-- The wire books carried by a response. -/
def booksOf : Response → List IBook
  | .result _ b => [b]
  | .results _ bs => bs
  | .paged _ bs _ => bs
  | _ => []

/-- Every authors string a response carries is a sorted comma-join. -/
def AuthorsSortedIn (r : Response) : Prop :=
  ∀ ib ∈ booksOf r, ∀ str, ib.authors = some str → IsSortedCsv str

theorem isSortedCsv_agg (l : List String) : IsSortedCsv (aggSorted l) :=
  ⟨sortAuthors l, sortAuthors_sorted l, rfl⟩

theorem authorsSortedIn_err (n : Nat) (m : String) :
    AuthorsSortedIn (Response.err n m) := by
  intro ib hib
  simp [booksOf] at hib

theorem authorsSortedIn_result_view (n : Nat) (g : BookRow × List String) :
    AuthorsSortedIn (Response.result n (viewToIBook g)) := by
  intro ib hib str hstr
  simp only [booksOf, List.mem_singleton] at hib
  subst hib
  have hx : (viewToIBook g).authors = some (aggSorted g.2) := rfl
  rw [hx] at hstr
  obtain rfl := Option.some.inj hstr
  exact isSortedCsv_agg g.2

theorem authorsSortedIn_results_view (n : Nat) (l : List (BookRow × List String)) :
    AuthorsSortedIn (Response.results n (l.map viewToIBook)) := by
  intro ib hib str hstr
  simp only [booksOf, List.mem_map] at hib
  obtain ⟨g, _, rfl⟩ := hib
  have hx : (viewToIBook g).authors = some (aggSorted g.2) := rfl
  rw [hx] at hstr
  obtain rfl := Option.some.inj hstr
  exact isSortedCsv_agg g.2

theorem authorsSortedIn_paged_view (n : Nat) (l : List (BookRow × List String))
    (pg : PageBlock) :
    AuthorsSortedIn (Response.paged n (l.map viewToIBook) pg) := by
  intro ib hib str hstr
  simp only [booksOf, List.mem_map] at hib
  obtain ⟨g, _, rfl⟩ := hib
  have hx : (viewToIBook g).authors = some (aggSorted g.2) := rfl
  rw [hx] at hstr
  obtain rfl := Option.some.inj hstr
  exact isSortedCsv_agg g.2

theorem authorsSortedIn_result_agg (n : Nat) (b : BookRow)
    (o : Option (BookRow × List String)) :
    AuthorsSortedIn (Response.result n (toBook b (o.map fun g => aggSorted g.2))) := by
  intro ib hib str hstr
  simp only [booksOf, List.mem_singleton] at hib
  subst hib
  have hx : (toBook b (o.map fun g => aggSorted g.2)).authors
      = o.map fun g => aggSorted g.2 := rfl
  rw [hx] at hstr
  cases o with
  | none => simp at hstr
  | some g =>
    obtain rfl := Option.some.inj hstr
    exact isSortedCsv_agg g.2

theorem authorsSortedIn_results_agg (n : Nat) (bs : List BookRow)
    (o : Option (BookRow × List String)) :
    AuthorsSortedIn (Response.results n
      (bs.map fun b => toBook b (o.map fun g => aggSorted g.2))) := by
  intro ib hib str hstr
  simp only [booksOf, List.mem_map] at hib
  obtain ⟨b, _, rfl⟩ := hib
  have hx : (toBook b (o.map fun g => aggSorted g.2)).authors
      = o.map fun g => aggSorted g.2 := rfl
  rw [hx] at hstr
  cases o with
  | none => simp at hstr
  | some g =>
    obtain rfl := Option.some.inj hstr
    exact isSortedCsv_agg g.2

/-- The pagination block of a response, when it has one. -/
def pageBlockOf : Response → Option PageBlock
  | .paged _ _ pg => some pg
  | _ => none

/-! ## Concrete fixtures -/

/-- An insert entry failing shape validation only on the ISBN (negative),
all other fields valid. -/
def entryBadIsbn : RawEntry :=
  { isbn13 := .num (-1)
    authors := some "John Smith"
    publication := .num 2000
    original_title := some "OT"
    title := some "T"
    ratings := some ⟨.num 4, .num 10, .num 1, .num 2, .num 3, .num 2, .num 2⟩
    icons := some ⟨some "L", some "S"⟩ }

/-- Two book rows sharing ISBN 1 (the data-integrity-violation state a
unique key is supposed to exclude), with distinct titles. -/
def bkA : BookRow := ⟨1, "TA", "TA", 2000, 4, 10, 1, 2, 3, 2, 2, "L", "S"⟩

def bkB : BookRow := ⟨1, "TB", "TB", 2001, 3, 10, 1, 2, 3, 2, 2, "L", "S"⟩

def dupStore : Store := ⟨[bkA, bkB], [⟨1, "Ann"⟩], [⟨1, 1⟩]⟩

/-- Two distinct books with the same title, each with a linked author. -/
def bkD1 : BookRow := ⟨11, "Dune", "Dune", 1965, 4, 10, 1, 2, 3, 2, 2, "L", "S"⟩

def bkD2 : BookRow := ⟨12, "Dune", "Dune", 1966, 3, 10, 1, 2, 3, 2, 2, "L", "S"⟩

def duneStore : Store := ⟨[bkD1, bkD2], [⟨1, "Frank Herbert"⟩], [⟨11, 1⟩, ⟨12, 1⟩]⟩

/-- One book linked to two authors whose link order ("Zed" then "Ann") is
the reverse of alphabetical order. -/
def bkZ : BookRow := ⟨5, "TZ", "TZ", 2000, 4, 10, 1, 2, 3, 2, 2, "L", "S"⟩

def cxStore : Store := ⟨[bkZ], [⟨1, "Zed"⟩, ⟨2, "Ann"⟩], [⟨5, 1⟩, ⟨5, 2⟩]⟩

/-- A book row with no `books_authors` rows at all. -/
def bkL : BookRow := ⟨7, "Lone", "Lone", 2002, 2, 1, 1, 0, 0, 0, 0, "L", "S"⟩

def lonelyStore : Store := ⟨[bkL], [], []⟩

/-- A rating-update payload with `average = 0` and every field valid. -/
def rAvg0 : RawRatings := ⟨.num 0, .num 10, .num 1, .num 2, .num 3, .num 2, .num 2⟩

/-- A valid rating-update payload: `average = 5, count = 100,
rating5 = 100, rating1..4 = 0` (count deliberately unequal to the star
sum). -/
def rGood : RawRatings := ⟨.num 5, .num 100, .num 0, .num 0, .num 0, .num 0, .num 100⟩

/-- A rating-update payload whose average is out of range and whose
`rating1` count is negative at the same time. -/
def rBothBad : RawRatings := ⟨.num 0, .num 0, .num (-1), .num 0, .num 0, .num 0, .num 0⟩

/-! ## C1 -/

/-- C1: refutation of the short-circuit the claim states.  On an entry
whose only shape failure is a negative ISBN, `verifyElement` sends the 400
rejection, but the validation middleware's unconditional `next()` lets the
handler run: the Book INSERT query is issued and the row (ISBN `-1`) lands
in storage together with its author and link rows. -/
theorem insert_shape_failure_still_inserts :
    (postBooks ⟨[], [], []⟩ entryBadIsbn).2.1 =
      Response.err 400 "Invalid or missing ISBN - please refer to documentation" ∧
    (postBooks ⟨[], [], []⟩ entryBadIsbn).2.2 = true ∧
    (postBooks ⟨[], [], []⟩ entryBadIsbn).1 =
      ⟨[⟨-1, "T", "OT", 2000, 4, 10, 1, 2, 3, 2, 2, "L", "S"⟩],
       [⟨1, "John Smith"⟩], [⟨-1, 1⟩]⟩ := by
  decide

/-! ## C2 -/

/-- C2, counterexample to the claim as stated: with two view rows matching
ISBN 1, the by-ISBN lookup answers 404 "No book with given ISBN" — a
client-facing not-found — not the 500-class server error the claim
requires for a multi-row match. -/
theorem isbn_lookup_two_rows_gives_404 :
    ((groupedView dupStore).filter (fun g => g.1.isbn13 == 1)).length = 2 ∧
    (getBookByIsbn dupStore (.num 1)).1 = Response.err 404 "No book with given ISBN" ∧
    (getBookByIsbn dupStore (.num 1)).1 ≠
      Response.err 500 "server error - contact support" := by
  decide

/-- C2, amended: for an in-range numeric ISBN the lookup returns the book
exactly when the view matches one row, and 404 "No book with given ISBN"
for every other row count — zero and more-than-one alike; the server-error
path is reserved for storage failures. -/
theorem isbn_lookup_unique_row_or_404 (s : Store) (x : ℚ)
    (h0 : 0 ≤ x) (h13 : x ≤ 10 ^ 13) :
    (∀ g, (groupedView s).filter (fun g2 => g2.1.isbn13 == x) = [g] →
      (getBookByIsbn s (.num x)).1 = Response.result 200 (viewToIBook g)) ∧
    (((groupedView s).filter (fun g2 => g2.1.isbn13 == x)).length ≠ 1 →
      (getBookByIsbn s (.num x)).1 = Response.err 404 "No book with given ISBN") := by
  have hcond : ¬(x < 0 ∨ x > 10 ^ 13) := by
    push_neg
    exact ⟨h0, h13⟩
  have hmw : isbnParamFirstError (.num x) = none := by
    simp [isbnParamFirstError, hcond]
  constructor
  · intro g hg
    simp [getBookByIsbn, hmw, hg]
  · intro hlen
    rcases hfil : (groupedView s).filter (fun g2 => g2.1.isbn13 == x) with _ | ⟨a, rest⟩
    · simp [getBookByIsbn, hmw, hfil]
    · rcases rest with _ | ⟨b, rest2⟩
      · rw [hfil] at hlen
        simp at hlen
      · simp [getBookByIsbn, hmw, hfil]

/-- C2 witness: the amended lookup theorem applied at a concrete store
with a unique match, and at the duplicate store. -/
theorem isbn_lookup_unique_row_or_404_witness :
    (getBookByIsbn cxStore (.num 5)).1 =
      Response.result 200 (viewToIBook (bkZ, ["Zed", "Ann"])) ∧
    (getBookByIsbn dupStore (.num 1)).1 =
      Response.err 404 "No book with given ISBN" :=
  ⟨(isbn_lookup_unique_row_or_404 cxStore 5 (by decide) (by decide)).1
      (bkZ, ["Zed", "Ann"]) (by decide),
   (isbn_lookup_unique_row_or_404 dupStore 1 (by decide) (by decide)).2 (by decide)⟩

/-! ## C3 -/

/-- C3, counterexample to the claimed check order: a payload whose average
is out of range (0) and whose `rating1` count is negative is reported as
the negative-count violation, because the validator's negative-count loop
runs before its average range check — not after, as the claim states. -/
theorem rating_validator_counts_checked_before_average :
    avgOutOfRange rBothBad = true ∧
    someCountNegative rBothBad = true ∧
    ratingUpdateFirstError rBothBad =
      some "Rating count must be positive - please refer to documenation" ∧
    ratingUpdateFirstError rBothBad ≠
      some "Rating average is not in range of 1 to 5 inclusive - please refer to documentation" := by
  decide

/-- C3, amended: the rating-update validator is first-failure-wins in the
order presence of all seven fields, then the six counts nonnegative, then
the average within `[1, 5]` — a full characterization of which message it
reports. -/
theorem rating_validator_first_failure_order (r : RawRatings) :
    (ratingUpdateFirstError r =
        some "Missing fields within the body - please refer to documentation" ↔
      allRatingsProvided r = false) ∧
    (ratingUpdateFirstError r =
        some "Rating count must be positive - please refer to documenation" ↔
      allRatingsProvided r = true ∧ someCountNegative r = true) ∧
    (ratingUpdateFirstError r =
        some "Rating average is not in range of 1 to 5 inclusive - please refer to documentation" ↔
      allRatingsProvided r = true ∧ someCountNegative r = false ∧
        avgOutOfRange r = true) ∧
    (ratingUpdateFirstError r = none ↔
      allRatingsProvided r = true ∧ someCountNegative r = false ∧
        avgOutOfRange r = false) := by
  unfold ratingUpdateFirstError
  rcases h1 : allRatingsProvided r <;> rcases h2 : someCountNegative r <;>
    rcases h3 : avgOutOfRange r <;> simp

/-- C3 witness: the characterization applied at the concrete
double-violation payload. -/
theorem rating_validator_first_failure_order_witness :
    ratingUpdateFirstError rBothBad =
      some "Rating count must be positive - please refer to documenation" :=
  (rating_validator_first_failure_order rBothBad).2.1.mpr (by decide)

/-! ## C5 -/

/-- C5: the code fails the claim's own scenario.  With two books titled
"Dune", each carrying an author, the CTE has two rows, the uncorrelated
scalar subquery `(SELECT authors FROM delete_book)` errors, the statement
is rolled back: the response is the 500 server error and no book is
removed — not the claimed success with both pre-images. -/
theorem delete_by_title_two_matches_errors :
    (duneStore.books.filter (fun b => b.title == "Dune")).length = 2 ∧
    deleteBooksByTitle duneStore (some "Dune") =
      (duneStore, Response.err 500 "server error - contact support") := by
  decide

/-! ## C7 -/

/-- C7: two refutations at once.  The middleware's range test is
`Number(isbn) > 10^13`, so the boundary value `10^13` itself passes
validation and the storage query runs (404 on an empty store, not the
claimed 400 range rejection); and because the middleware ends in an
unconditional `next()`, even a rejected ISBN (-1) still issues the storage
query on the read, delete and rating-update routes alike. -/
theorem isbn_boundary_accepted_and_queried :
    isbnParamFirstError (.num (10 ^ 13)) = none ∧
    getBookByIsbn ⟨[], [], []⟩ (.num (10 ^ 13)) =
      (Response.err 404 "No book with given ISBN", true) ∧
    (getBookByIsbn ⟨[], [], []⟩ (.num (-1))).2 = true ∧
    (deleteBookByIsbn ⟨[], [], []⟩ (.num (-1))).2.2 = true ∧
    (putBooksRating ⟨[], [], []⟩ (.num (-1)) rGood).2.2 = true := by
  decide

/-! ## C4 -/

/-- C4: with `average = 0` the range check blocks `next()`, so the UPDATE
is never issued and the store is untouched; when the rest of the payload
and the ISBN are also valid, the observable rejection is exactly the
average range error.  With a valid aggregate the seven stored fields are
replaced by exactly the supplied values — no recomputation and no
count-consistency check — and a uniquely matched row is echoed back with
those values. -/
theorem rating_update_range_reject_and_verbatim_store
    (s : Store) (x av c a1 a2 a3 a4 a5 : ℚ) (r : RawRatings)
    (hr : r = ⟨.num av, .num c, .num a1, .num a2, .num a3, .num a4, .num a5⟩) :
    (av = 0 →
      (putBooksRating s (.num x) r).1 = s ∧
      (putBooksRating s (.num x) r).2.2 = false ∧
      (0 ≤ x → x ≤ 10 ^ 13 → 0 ≤ c → 0 ≤ a1 → 0 ≤ a2 → 0 ≤ a3 → 0 ≤ a4 →
        0 ≤ a5 →
        (putBooksRating s (.num x) r).2.1 =
          Response.err 400
            "Rating average is not in range of 1 to 5 inclusive - please refer to documentation")) ∧
    (1 ≤ av → av ≤ 5 → 0 ≤ c → 0 ≤ a1 → 0 ≤ a2 → 0 ≤ a3 → 0 ≤ a4 → 0 ≤ a5 →
      0 ≤ x → x ≤ 10 ^ 13 →
      (putBooksRating s (.num x) r).1.books =
        s.books.map (fun b =>
          if b.isbn13 == x then applyRatingUpdate b av c a1 a2 a3 a4 a5 else b) ∧
      (∀ b, s.books.filter (fun b2 => b2.isbn13 == x) = [b] →
        (putBooksRating s (.num x) r).2.1 =
          Response.updatedRow 201 (applyRatingUpdate b av c a1 a2 a3 a4 a5))) := by
  subst hr
  constructor
  · intro hav
    subst hav
    have hnc : ratingNextCalled
        ⟨.num 0, .num c, .num a1, .num a2, .num a3, .num a4, .num a5⟩ = false := rfl
    refine ⟨by simp [putBooksRating, hnc], by simp [putBooksRating, hnc], ?_⟩
    intro hx0 hx13 hc h1 h2 h3 h4 h5
    have hcond : ¬(x < 0 ∨ x > 10 ^ 13) := by
      push_neg
      exact ⟨hx0, hx13⟩
    have hmw : isbnParamFirstError (.num x) = none := by
      simp [isbnParamFirstError, hcond]
    have hcnt : someCountNegative
        ⟨.num 0, .num c, .num a1, .num a2, .num a3, .num a4, .num a5⟩ = false := by
      simp [someCountNegative, rawLtZero, not_lt.mpr hc, not_lt.mpr h1,
        not_lt.mpr h2, not_lt.mpr h3, not_lt.mpr h4, not_lt.mpr h5]
    have hval : ratingUpdateFirstError
        ⟨.num 0, .num c, .num a1, .num a2, .num a3, .num a4, .num a5⟩ =
        some "Rating average is not in range of 1 to 5 inclusive - please refer to documentation" := by
      simp [ratingUpdateFirstError, allRatingsProvided, isNumberProvided, hcnt,
        avgOutOfRange]
    simp [putBooksRating, hnc, firstSent2, hmw, hval]
  · intro hav1 hav5 hc h1 h2 h3 h4 h5 hx0 hx13
    have hnc : ratingNextCalled
        ⟨.num av, .num c, .num a1, .num a2, .num a3, .num a4, .num a5⟩ = true := by
      simp [ratingNextCalled, not_lt.mpr hav5, not_lt.mpr hav1]
    have hcond : ¬(x < 0 ∨ x > 10 ^ 13) := by
      push_neg
      exact ⟨hx0, hx13⟩
    have hmw : isbnParamFirstError (.num x) = none := by
      simp [isbnParamFirstError, hcond]
    have hcnt : someCountNegative
        ⟨.num av, .num c, .num a1, .num a2, .num a3, .num a4, .num a5⟩ = false := by
      simp [someCountNegative, rawLtZero, not_lt.mpr hc, not_lt.mpr h1,
        not_lt.mpr h2, not_lt.mpr h3, not_lt.mpr h4, not_lt.mpr h5]
    have havr : avgOutOfRange
        ⟨.num av, .num c, .num a1, .num a2, .num a3, .num a4, .num a5⟩ = false := by
      simp [avgOutOfRange, not_lt.mpr hav5, not_lt.mpr hav1]
    have hval : ratingUpdateFirstError
        ⟨.num av, .num c, .num a1, .num a2, .num a3, .num a4, .num a5⟩ = none := by
      simp [ratingUpdateFirstError, allRatingsProvided, isNumberProvided, hcnt, havr]
    constructor
    · simp [putBooksRating, hnc]
    · intro b hb
      simp [putBooksRating, hnc, firstSent2, hmw, hval, hb]

/-- C4 witness: on the concrete two-book store, the `average = 0` payload
leaves the store untouched and reports the range error, and the valid
aggregate `average=5, count=100, rating5=100, rating1..4=0` is stored and
echoed verbatim for ISBN 11. -/
theorem rating_update_range_reject_and_verbatim_store_witness :
    (putBooksRating duneStore (.num 11) rAvg0).1 = duneStore ∧
    (putBooksRating duneStore (.num 11) rAvg0).2.1 =
      Response.err 400
        "Rating average is not in range of 1 to 5 inclusive - please refer to documentation" ∧
    (putBooksRating duneStore (.num 11) rGood).1.books =
      duneStore.books.map (fun b =>
        if b.isbn13 == 11 then applyRatingUpdate b 5 100 0 0 0 0 100 else b) ∧
    (putBooksRating duneStore (.num 11) rGood).2.1 =
      Response.updatedRow 201 (applyRatingUpdate bkD1 5 100 0 0 0 0 100) :=
  ⟨((rating_update_range_reject_and_verbatim_store duneStore 11 0 10 1 2 3 2 2
      rAvg0 rfl).1 rfl).1,
   ((rating_update_range_reject_and_verbatim_store duneStore 11 0 10 1 2 3 2 2
      rAvg0 rfl).1 rfl).2.2 (by decide) (by decide) (by decide) (by decide)
      (by decide) (by decide) (by decide) (by decide),
   ((rating_update_range_reject_and_verbatim_store duneStore 11 5 100 0 0 0 0 100
      rGood rfl).2 (by decide) (by decide) (by decide) (by decide) (by decide)
      (by decide) (by decide) (by decide) (by decide) (by decide)).1,
   ((rating_update_range_reject_and_verbatim_store duneStore 11 5 100 0 0 0 0 100
      rGood rfl).2 (by decide) (by decide) (by decide) (by decide) (by decide)
      (by decide) (by decide) (by decide) (by decide) (by decide)).2 bkD1
      (by decide)⟩

/-! ## C6 -/

/-- C6, counterexample to the claim as stated: the delete-by-author
route's pre-image aggregates author names without `ORDER BY`, in join
order.  A book linked to "Zed" then "Ann" is returned by the by-ISBN read
with the sorted string "Ann, Zed", but by the delete-by-author route with
the unsorted "Zed, Ann". -/
theorem delete_by_author_authors_not_sorted :
    (deleteBooksByAuthor cxStore (some "Zed")).2 =
      Response.results 200 [toBook bkZ (some "Zed, Ann")] ∧
    (getBookByIsbn cxStore (.num 5)).1 =
      Response.result 200 (toBook bkZ (some "Ann, Zed")) ∧
    aggSorted ["Zed", "Ann"] = "Ann, Zed" ∧
    ("Zed, Ann" : String) ≠ "Ann, Zed" := by
  decide

/-- C6, amended: every query variant returning the denormalized view —
by ISBN, by title, by author, by rating range, the paginated scan, and
the pre-images returned by delete-by-ISBN and delete-by-title — carries
authors as one comma-joined, alphabetically sorted string; the
delete-by-author pre-image is the exception, aggregated without a defined
order. -/
theorem query_views_sort_authors (s : Store) (p : RawVal) (t a : Option String)
    (mn mx : RawVal) (ord : Option String) (lim off : RawVal) :
    AuthorsSortedIn (getBookByIsbn s p).1 ∧
    AuthorsSortedIn (getBooksByTitle s t) ∧
    AuthorsSortedIn (getBooksByAuthor s a) ∧
    AuthorsSortedIn (postBooksRating s mn mx ord).1 ∧
    AuthorsSortedIn (postPaginationOffset s lim off) ∧
    AuthorsSortedIn (deleteBookByIsbn s p).2.1 ∧
    AuthorsSortedIn (deleteBooksByTitle s t).2 := by
  refine ⟨?_, ?_, ?_, ?_, ?_, ?_, ?_⟩
  · simp only [getBookByIsbn]
    split
    · exact authorsSortedIn_err _ _
    · split
      · split
        · exact authorsSortedIn_result_view _ _
        · exact authorsSortedIn_err _ _
      · exact authorsSortedIn_err _ _
  · simp only [getBooksByTitle]
    split
    · exact authorsSortedIn_err _ _
    · split
      · split
        · exact authorsSortedIn_results_view _ _
        · exact authorsSortedIn_err _ _
      · exact authorsSortedIn_err _ _
  · simp only [getBooksByAuthor]
    split
    · exact authorsSortedIn_err _ _
    · split
      · split
        · exact authorsSortedIn_results_view _ _
        · exact authorsSortedIn_err _ _
      · exact authorsSortedIn_err _ _
  · simp only [postBooksRating]
    split
    · exact authorsSortedIn_err _ _
    · split
      · split
        · exact authorsSortedIn_results_view _ _
        · exact authorsSortedIn_results_view _ _
      · exact authorsSortedIn_results_view _ []
      · exact authorsSortedIn_err _ _
  · simp only [postPaginationOffset]
    exact authorsSortedIn_paged_view _ _ _
  · simp only [deleteBookByIsbn]
    split
    · split
      · split
        · exact authorsSortedIn_err _ _
        · exact authorsSortedIn_err _ _
      · split
        · exact authorsSortedIn_err _ _
        · split
          · exact authorsSortedIn_result_agg _ _ _
          · exact authorsSortedIn_err _ _
    · split
      · exact authorsSortedIn_err _ _
      · exact authorsSortedIn_err _ _
  · simp only [deleteBooksByTitle]
    split
    · exact authorsSortedIn_err _ _
    · split
      · split
        · exact authorsSortedIn_err _ _
        · split
          · exact authorsSortedIn_results_agg _ _ _
          · exact authorsSortedIn_err _ _
      · exact authorsSortedIn_err _ _

/-- C6 witness: the sortedness theorem applied to the by-ISBN read of the
book whose links are stored in reverse alphabetical order. -/
theorem query_views_sort_authors_witness : IsSortedCsv "Ann, Zed" :=
  (query_views_sort_authors cxStore (.num 5) none none .missing .missing none
      .missing .missing).1
    (toBook bkZ (some "Ann, Zed")) (by decide) "Ann, Zed" rfl

/-! ## C8 -/

/-- C8: a rating-range request with `min ≤ 0` or `max < min` is rejected
with a 400 before any storage query; otherwise (for a valid order value)
the response holds exactly the view rows with `min ≤ average ≤ max` —
as a permutation of the filtered view — sorted by average ascending for
`"min-first"` and descending for `"max-first"`. -/
theorem rating_range_rejects_then_filters_and_sorts
    (s : Store) (m mM : ℚ) (ord : Option String) :
    (m ≤ 0 → ∃ msg, postBooksRating s (.num m) (.num mM) ord =
      (Response.err 400 msg, false)) ∧
    (mM < m → ∃ msg, postBooksRating s (.num m) (.num mM) ord =
      (Response.err 400 msg, false)) ∧
    (0 < m → m ≤ mM →
      ∃ l, postBooksRating s (.num m) (.num mM) (some "min-first") =
          (Response.results 200 l, true) ∧
        (l.map fun ib => ib.ratings.average).Pairwise (fun q1 q2 => q1 ≤ q2) ∧
        l.Perm ((ratingRangeRows s m mM).map viewToIBook)) ∧
    (0 < m → m ≤ mM →
      ∃ l, postBooksRating s (.num m) (.num mM) (some "max-first") =
          (Response.results 200 l, true) ∧
        (l.map fun ib => ib.ratings.average).Pairwise (fun q1 q2 => q2 ≤ q1) ∧
        l.Perm ((ratingRangeRows s m mM).map viewToIBook)) := by
  refine ⟨?_, ?_, ?_, ?_⟩
  · intro hm
    cases hso : isStringProvided ord with
    | false =>
      exact ⟨"Missing ordering field in http body - please refer to documentation",
        by simp [postBooksRating, ratingRangeFirstError, hso, isNumberProvided]⟩
    | true =>
      exact ⟨"Missing or invalid lower-bound parameter - please refer to documentation",
        by simp [postBooksRating, ratingRangeFirstError, hso, hm]⟩
  · intro hlt
    cases hso : isStringProvided ord with
    | false =>
      exact ⟨"Missing ordering field in http body - please refer to documentation",
        by simp [postBooksRating, ratingRangeFirstError, hso, isNumberProvided]⟩
    | true =>
      by_cases hm0 : m ≤ 0
      · exact ⟨"Missing or invalid lower-bound parameter - please refer to documentation",
          by simp [postBooksRating, ratingRangeFirstError, hso, hm0]⟩
      · exact ⟨"The lower bound for the interal is greater than the upper bound - please refer to documentation",
          by simp [postBooksRating, ratingRangeFirstError, hso, hm0,
            rawLtNum, hlt]⟩
  · intro hm0 hmm
    refine ⟨(sortByAvgAsc (ratingRangeRows s m mM)).map viewToIBook, ?_, ?_, ?_⟩
    · have hso : isStringProvided (some "min-first") = true := rfl
      simp [postBooksRating, ratingRangeFirstError, hso, not_le.mpr hm0,
        rawLtNum, not_lt.mpr hmm]
    · rw [List.pairwise_map, List.pairwise_map]
      exact sortByAvgAsc_sorted (ratingRangeRows s m mM)
    · exact (sortByAvgAsc_perm (ratingRangeRows s m mM)).map viewToIBook
  · intro hm0 hmm
    refine ⟨(sortByAvgDesc (ratingRangeRows s m mM)).map viewToIBook, ?_, ?_, ?_⟩
    · have hso : isStringProvided (some "max-first") = true := rfl
      simp [postBooksRating, ratingRangeFirstError, hso, not_le.mpr hm0,
        rawLtNum, not_lt.mpr hmm]
    · rw [List.pairwise_map, List.pairwise_map]
      exact sortByAvgDesc_sorted (ratingRangeRows s m mM)
    · exact (sortByAvgDesc_perm (ratingRangeRows s m mM)).map viewToIBook

/-- C8 witness: `min = 0` is rejected without a query, and on the
two-book store `min = 2, max = 5, order = "max-first"` returns the
filtered view sorted descending. -/
theorem rating_range_rejects_then_filters_and_sorts_witness :
    (∃ msg, postBooksRating duneStore (.num 0) (.num 5) (some "min-first") =
      (Response.err 400 msg, false)) ∧
    (∃ l, postBooksRating duneStore (.num 2) (.num 5) (some "max-first") =
        (Response.results 200 l, true) ∧
      (l.map fun ib => ib.ratings.average).Pairwise (fun q1 q2 => q2 ≤ q1) ∧
      l.Perm ((ratingRangeRows duneStore 2 5).map viewToIBook)) :=
  ⟨(rating_range_rejects_then_filters_and_sorts duneStore 0 5 (some "min-first")).1
      (by decide),
   (rating_range_rejects_then_filters_and_sorts duneStore 2 5 (some "max-first")).2.2.2
      (by decide) (by decide)⟩

/-! ## C9 -/

/-- C9: the resolved limit is 16 whenever the raw limit is absent,
non-numeric or nonpositive and the raw value otherwise; the resolved
offset is 0 whenever the raw offset is absent, non-numeric or negative and
the raw value otherwise (0 accepted); and the returned pagination block is
exactly `⟨count(*), limit, offset, limit + offset⟩` for every store — the
cursor is never clamped to the total record count. -/
theorem pagination_defaults_and_unclamped_cursor (s : Store) (lim off : RawVal) :
    resolveLimit .missing = 16 ∧ resolveLimit .nonNumeric = 16 ∧
    (∀ x : ℚ, x ≤ 0 → resolveLimit (.num x) = 16) ∧
    (∀ x : ℚ, 0 < x → resolveLimit (.num x) = x) ∧
    resolveOffset .missing = 0 ∧ resolveOffset .nonNumeric = 0 ∧
    (∀ x : ℚ, x < 0 → resolveOffset (.num x) = 0) ∧
    (∀ x : ℚ, 0 ≤ x → resolveOffset (.num x) = x) ∧
    pageBlockOf (postPaginationOffset s lim off) =
      some ⟨s.books.length, resolveLimit lim, resolveOffset off,
            resolveLimit lim + resolveOffset off⟩ := by
  refine ⟨rfl, rfl, ?_, ?_, rfl, rfl, ?_, ?_, rfl⟩
  · intro x hx
    simp [resolveLimit, not_lt.mpr hx]
  · intro x hx
    simp [resolveLimit, hx]
  · intro x hx
    simp [resolveOffset, not_le.mpr hx]
  · intro x hx
    simp [resolveOffset, hx]

/-- C9 witness: `limit = 0` and `offset = -5` resolve to the defaults and
the block carries `nextPage = 16 + 0` on a concrete two-book store. -/
theorem pagination_defaults_and_unclamped_cursor_witness :
    resolveLimit (.num 0) = 16 ∧ resolveOffset (.num (-5)) = 0 ∧
    pageBlockOf (postPaginationOffset duneStore (.num 0) (.num (-5))) =
      some ⟨2, resolveLimit (.num 0), resolveOffset (.num (-5)),
            resolveLimit (.num 0) + resolveOffset (.num (-5))⟩ :=
  ⟨(pagination_defaults_and_unclamped_cursor duneStore (.num 0) (.num (-5))).2.2.1
      0 (by decide),
   (pagination_defaults_and_unclamped_cursor duneStore (.num 0) (.num (-5))).2.2.2.2.2.2.1
      (-5) (by decide),
   (pagination_defaults_and_unclamped_cursor duneStore (.num 0) (.num (-5))).2.2.2.2.2.2.2.2⟩

/-! ## C10 -/

/-- C10: a Books row with no `books_authors` rows is invisible to the
by-ISBN read — the inner join produces no view row, so the route answers
404 "No book with given ISBN" instead of the book. -/
theorem linkless_book_reads_as_404 (s : Store) (b : BookRow)
    (_hb : b ∈ s.books) (h0 : 0 ≤ b.isbn13) (h13 : b.isbn13 ≤ 10 ^ 13)
    (hno : ∀ l ∈ s.links, l.isbn13 ≠ b.isbn13) :
    (getBookByIsbn s (.num b.isbn13)).1 =
      Response.err 404 "No book with given ISBN" := by
  have hcond : ¬(b.isbn13 < 0 ∨ b.isbn13 > 10 ^ 13) := by
    push_neg
    exact ⟨h0, h13⟩
  have hmw : isbnParamFirstError (.num b.isbn13) = none := by
    simp [isbnParamFirstError, hcond]
  have hjoin : ∀ jr ∈ joinRows s, jr.1.isbn13 ≠ b.isbn13 := by
    intro jr hjr heq
    simp only [joinRows, List.mem_flatMap, List.mem_map, List.mem_filter] at hjr
    obtain ⟨b1, _, l, ⟨hl, hleq⟩, a, _, rfl⟩ := hjr
    have : l.isbn13 = b1.isbn13 := by
      exact beq_iff_eq.mp hleq
    exact hno l hl (by rw [this]; exact heq)
  have hview : ∀ g ∈ groupedView s, g.1.isbn13 ≠ b.isbn13 := by
    intro g hg
    simp only [groupedView, groupRows, List.mem_map, List.mem_dedup] at hg
    obtain ⟨b0, hb0, rfl⟩ := hg
    obtain ⟨jr, hjr, rfl⟩ := hb0
    exact hjoin jr hjr
  have hfil : (groupedView s).filter (fun g2 => g2.1.isbn13 == b.isbn13) = [] := by
    rw [List.filter_eq_nil_iff]
    intro g hg
    simp only [beq_iff_eq]
    exact hview g hg
  simp [getBookByIsbn, hmw, hfil]

/-- C10 witness: a store holding one book and no links at all answers 404
for that book's ISBN. -/
theorem linkless_book_reads_as_404_witness :
    (getBookByIsbn lonelyStore (.num 7)).1 =
      Response.err 404 "No book with given ISBN" :=
  linkless_book_reads_as_404 lonelyStore bkL (by decide) (by decide)
    (by decide) (by decide)

end Catalog
